import Mathlib

/-!
Shallow embedding of the complaint subsystem of the Credit Card Complaint
Portal API (src/main.py, src/schemas.py).

The MongoDB document store is modelled as an in-memory `Store`: each pymongo
call used by the handlers (`find_one`, `update_one` with `$set` / `$push`,
`count_documents`) is given its standard semantics over that state.  The
`database` helper module (`create_document`, `get_documents`) is not part of
src/, so those two operations are modelled from the spec where noted.
-/

namespace ComplaintPortal

/-- Hexadecimal digit test, as accepted by bson ObjectId strings. -/
def isHexChar (c : Char) : Bool :=
  c.isDigit || (('a' ≤ c) && (c ≤ 'f')) || (('A' ≤ c) && (c ≤ 'F'))

/-- Model of `ObjectId(s)` succeeding on a string input: bson accepts exactly
the 24-character hexadecimal strings; anything else raises `InvalidId`. -/
def isValidObjectId (s : String) : Bool :=
  s.length == 24 && s.data.all isHexChar

/-- One entry of a complaint's `notes` list, pushed by `update_complaint` as
`{"text": req.note, "at": datetime.utcnow().isoformat()}` (main.py:212). -/
structure Note where
  text : String
  «at» : String
deriving DecidableEq, Repr

/-- A stored complaint document (schemas.py `Complaint`, with the wire `id`
that `serialize_doc` derives from the Mongo `_id`).  `status` is stored as a
plain string, as Mongo imposes no enumeration on stored data. -/
structure Complaint where
  id : String
  user_id : String
  title : String
  category : String
  description : String
  attachments : List String
  status : String
  assigned_to : Option String
  priority : String
  sla_due_at : Option String
  notes : List Note
deriving DecidableEq, Repr

/-- The database state: the `user` collection reduced to its ids, the `faq`
collection to its `is_active` flags, the `news` collection to its
`is_published` flags, and the full `complaint` collection. -/
structure Store where
  users : List String
  faqs : List Bool
  news : List Bool
  complaints : List Complaint
deriving DecidableEq, Repr

/-- Semantics of `db.complaint.find_one({"_id": cid})`: the first stored
document whose id matches. -/
def findComplaint (st : Store) (cid : String) : Option Complaint :=
  st.complaints.find? (fun c => c.id == cid)

/-- Semantics of `db.complaint.update_one({"_id": cid}, ...)`: apply `f` to
the first document whose id matches; a no-op when no document matches. -/
def updateFirst (cid : String) (f : Complaint → Complaint) :
    List Complaint → List Complaint
  | [] => []
  | c :: cs => if c.id == cid then f c :: cs else c :: updateFirst cid f cs

/-- The four status literals of `ComplaintUpdate.status` (main.py:67). -/
inductive Status where
  | baru
  | diproses
  | selesai
  | ditolak
deriving DecidableEq, Repr

/-- The string a `Status` literal denotes. -/
def Status.toStr : Status → String
  | .baru => "baru"
  | .diproses => "diproses"
  | .selesai => "selesai"
  | .ditolak => "ditolak"

/-- The `category` literals of `ComplaintCreate` (main.py:60). -/
def categoryLits : List String :=
  ["limit", "tagihan", "kartu_hilang", "penipuan", "biaya", "lainnya"]

/-- The `priority` literals of `ComplaintCreate` (main.py:63). -/
def priorityLits : List String :=
  ["rendah", "sedang", "tinggi"]

/-- A parsed `ComplaintCreate` request body (main.py:57-63), after pydantic
validation. -/
structure ComplaintCreate where
  user_id : String
  title : String
  category : String
  description : String
  attachments : List String
  priority : String
deriving DecidableEq, Repr

/-- A raw JSON body sent to `POST /api/complaints`, before pydantic parsing.
Besides the declared `ComplaintCreate` fields it carries the workflow fields
(`status`, `assigned_to`, `notes`) a caller might smuggle into the payload. -/
structure CreatePayload where
  user_id : Option String
  title : Option String
  category : Option String
  description : Option String
  attachments : Option (List String)
  priority : Option String
  status : Option String
  assigned_to : Option String
  notes : Option (List Note)
deriving DecidableEq, Repr

/-- Pydantic parsing of a `CreatePayload` into a `ComplaintCreate`:
`user_id`, `title`, `description` are required; `category` and `priority`
default and must be among their literals; extra fields are ignored (pydantic
default behaviour — `ComplaintCreate` declares no workflow fields). -/
def parseComplaintCreate (p : CreatePayload) : Option ComplaintCreate :=
  match p.user_id, p.title, p.description with
  | some u, some t, some d =>
    let cat := p.category.getD "lainnya"
    let pri := p.priority.getD "sedang"
    if categoryLits.contains cat && priorityLits.contains pri then
      some { user_id := u, title := t, category := cat, description := d,
             attachments := p.attachments.getD [], priority := pri }
    else none
  | _, _, _ => none

/-- A parsed `ComplaintUpdate` request body (main.py:66-69). -/
structure ComplaintUpdate where
  status : Option Status
  assigned_to : Option String
  note : Option String
deriving DecidableEq, Repr

/-- The two error raises of the complaint handlers: `HTTPException(400, ...)`
for malformed input (and pydantic rejection of the body) and
`HTTPException(404, ...)` for an absent referenced entity. -/
inductive ApiError where
  | validation (detail : String)
  | notFound (detail : String)
deriving DecidableEq, Repr

/-- The `data` dict built by `create_complaint` (main.py:170-181): workflow
fields forced server-side, the rest taken from the request. -/
def newComplaintDoc (newId : String) (req : ComplaintCreate) : Complaint :=
  { id := newId
    user_id := req.user_id
    title := req.title
    category := req.category
    description := req.description
    attachments := req.attachments
    status := "baru"
    assigned_to := none
    priority := req.priority
    sla_due_at := none
    notes := [] }

/-- Handler `create_complaint` (main.py:161-184).  `newId` stands for the id
the store generates for the insert.  Insertion itself (`create_document`) is
modelled from the spec: the `database` module is not under src/; per spec
§4.1 `insert(record) -> id` persists a new complaint with a server-generated
unique id, embedded here as appending the record carrying `newId`.  Returns
the resulting store together with the response or the raised error; both
error paths fire before the insert, leaving the store untouched. -/
def create_complaint (newId : String) (st : Store) (req : ComplaintCreate) :
    Store × Except ApiError Complaint :=
  if ¬ isValidObjectId req.user_id then
    (st, .error (.validation "user_id tidak valid"))
  else if ¬ st.users.contains req.user_id then
    (st, .error (.notFound "User tidak ditemukan"))
  else
    match findComplaint
        { st with complaints := st.complaints ++ [newComplaintDoc newId req] } newId with
    | some doc =>
      ({ st with complaints := st.complaints ++ [newComplaintDoc newId req] }, .ok doc)
    | none =>
      ({ st with complaints := st.complaints ++ [newComplaintDoc newId req] },
       .error (.notFound "unreachable: read-after-insert"))

/-- Endpoint `POST /api/complaints` end to end: pydantic validation of the
raw body, then the handler. -/
def create_endpoint (newId : String) (st : Store) (p : CreatePayload) :
    Store × Except ApiError Complaint :=
  match parseComplaintCreate p with
  | none => (st, .error (.validation "request body validation failed"))
  | some req => create_complaint newId st req

/-- The `$push` on `notes` staged by `update_complaint` (main.py:212). -/
def pushNote (text now : String) (c : Complaint) : Complaint :=
  { c with notes := c.notes ++ [{ text := text, «at» := now }] }

/-- The `$set` of the `updates` dict built by `update_complaint`
(main.py:206-210): `status` when present, `assigned_to` when present. -/
def applyScalarUpdates (req : ComplaintUpdate) (c : Complaint) : Complaint :=
  let c1 := match req.status with
    | some s => { c with status := s.toStr }
    | none => c
  match req.assigned_to with
  | some a => { c1 with assigned_to := some a }
  | none => c1

/-- Whether the `updates` dict is non-empty, guarding the `$set` write
(main.py:213). -/
def hasScalarUpdates (req : ComplaintUpdate) : Bool :=
  req.status.isSome || req.assigned_to.isSome

/-- The conditional note push of `update_complaint` (main.py:211-212),
guarded by Python truthiness (`if req.note:`), so an absent or empty-string
note writes nothing. -/
def noteWrite (now cid : String) (req : ComplaintUpdate) (st : Store) : Store :=
  match req.note with
  | some n =>
    if n ≠ "" then
      { st with complaints := updateFirst cid (pushNote n now) st.complaints }
    else st
  | none => st

/-- The conditional scalar write of `update_complaint` (main.py:213-214),
issued only when the `updates` dict is non-empty. -/
def scalarWrite (cid : String) (req : ComplaintUpdate) (st : Store) : Store :=
  if hasScalarUpdates req then
    { st with complaints := updateFirst cid (applyScalarUpdates req) st.complaints }
  else st

/-- The write phase of `update_complaint`: the note push runs before the
scalar `$set` (main.py:211-214). -/
def updateWrites (now : String) (st : Store) (cid : String)
    (req : ComplaintUpdate) : Store :=
  scalarWrite cid req (noteWrite now cid req st)

/-- Handler `update_complaint` (main.py:200-218).  `now` stands for
`datetime.utcnow().isoformat()` at the note push.  The existence check runs
only after the conditional writes. -/
def update_complaint (now : String) (st : Store) (complaint_id : String)
    (req : ComplaintUpdate) : Store × Except ApiError Complaint :=
  if ¬ isValidObjectId complaint_id then
    (st, .error (.validation "ID tidak valid"))
  else
    match findComplaint (updateWrites now st complaint_id req) complaint_id with
    | none =>
      (updateWrites now st complaint_id req, .error (.notFound "Pengaduan tidak ditemukan"))
    | some doc => (updateWrites now st complaint_id req, .ok doc)

/-- One query-parameter constraint of `list_complaints`: the key enters the
filter dict only when its value is truthy (`if status:` etc., main.py:190-195),
so a supplied empty string imposes no constraint. -/
def fieldConstraint (q : Option String) (v : String) : Bool :=
  match q with
  | some s => if s ≠ "" then v == s else true
  | none => true

/-- Constraint on the nullable `assigned_to` field: the Mongo equality
`{"assigned_to": s}` matches exactly the documents storing that string
(a null field does not match). -/
def optFieldConstraint (q : Option String) (v : Option String) : Bool :=
  match q with
  | some s => if s ≠ "" then v == some s else true
  | none => true

/-- The conjunctive filter dict `q` built by `list_complaints`
(main.py:189-195), as a predicate on stored complaints. -/
def listPred (status user_id assigned_to : Option String) (c : Complaint) : Bool :=
  fieldConstraint status c.status &&
  fieldConstraint user_id c.user_id &&
  optFieldConstraint assigned_to c.assigned_to

/-- Modelled from the spec: `get_documents("complaint", q, limit)` — the
`database` module is not under src/; per spec §4.1 `findMany(filter, limit)`
returns the complaints matching the conjunctive filter with `limit` bounding
the result count. -/
def get_documents_complaint (st : Store) (pred : Complaint → Bool)
    (limit : Nat) : List Complaint :=
  (st.complaints.filter pred).take limit

/-- Endpoint `GET /api/complaints` (main.py:187-197).  `limit` is `none` when the
query parameter is unspecified; FastAPI then applies the declared default
of 100. -/
def list_complaints (st : Store) (status user_id assigned_to : Option String)
    (limit : Option Nat) : List Complaint :=
  get_documents_complaint st (listPred status user_id assigned_to) (limit.getD 100)

/-- The response shape of `GET /api/dashboard/summary` (main.py:271-278). -/
structure DashboardSummary where
  users : Nat
  complaints : Nat
  complaints_open : Nat
  complaints_closed : Nat
  faqs : Nat
  news : Nat
deriving DecidableEq, Repr

/-- Handler `dashboard_summary` (main.py:263-278) with the store handle
present: six `count_documents` calls with their respective filters. -/
def dashboard_summary (st : Store) : DashboardSummary :=
  { users := st.users.length
    complaints := st.complaints.length
    complaints_open :=
      (st.complaints.filter (fun c => c.status == "baru" || c.status == "diproses")).length
    complaints_closed :=
      (st.complaints.filter (fun c => c.status == "selesai")).length
    faqs := (st.faqs.filter (fun b => b)).length
    news := (st.news.filter (fun b => b)).length }

/-- A sequence of `PATCH /api/complaints/{id}` calls applied to the store:
each triple is the call's clock value, the target id and the request body.
The store survives the request whether or not the handler raises. -/
def applyUpdates (st : Store) (calls : List (String × String × ComplaintUpdate)) :
    Store :=
  calls.foldl (fun s k => (update_complaint k.1 s k.2.1 k.2.2).1) st

/-- Every stored complaint with the given id has a non-null `assigned_to`. -/
def assignedInvariant (cid0 : String) (st : Store) : Prop :=
  ∀ c ∈ st.complaints, c.id = cid0 → c.assigned_to ≠ none

/-! Concrete data used to evaluate the operations on closed inputs. -/

/-- A well-formed id of a registered user. -/
def oidU : String := "507f1f77bcf86cd799439011"

/-- A well-formed id of an operator user. -/
def oidOp : String := "507f1f77bcf86cd799439022"

/-- A well-formed id that no user record carries. -/
def oidGhost : String := "507f1f77bcf86cd799439099"

/-- A well-formed id of a stored complaint. -/
def oidC : String := "b1c2d3e4f5a6b7c8d9e0f1a2"

/-- A well-formed id that no complaint record carries. -/
def oidGone : String := "cccccccccccccccccccccccc"

/-- A server-generated id for an insert. -/
def newId1 : String := "aaaaaaaaaaaaaaaaaaaaaaaa"

/-- A store holding one registered user and no complaints. -/
def wStore : Store :=
  { users := [oidU], faqs := [], news := [], complaints := [] }

/-- A create body that smuggles `status`, `assigned_to` and `notes` values
into the payload alongside the declared fields. -/
def wPayload : CreatePayload :=
  { user_id := some oidU
    title := some "Kartu hilang"
    category := some "kartu_hilang"
    description := some "Kartu kredit saya hilang"
    attachments := none
    priority := none
    status := some "selesai"
    assigned_to := some oidOp
    notes := some [{ text := "smuggled", «at» := "2024-01-01" }] }

/-- The record the create endpoint stores for `wPayload`. -/
def wDoc : Complaint :=
  { id := newId1
    user_id := oidU
    title := "Kartu hilang"
    category := "kartu_hilang"
    description := "Kartu kredit saya hilang"
    attachments := []
    status := "baru"
    assigned_to := none
    priority := "sedang"
    sla_due_at := none
    notes := [] }

/-- The store after the create endpoint processes `wPayload`. -/
def wStore1 : Store := { wStore with complaints := [wDoc] }

/-- A create body whose `title` is the empty string. -/
def emptyTitlePayload : CreatePayload :=
  { user_id := some oidU
    title := some ""
    category := none
    description := some "deskripsi"
    attachments := none
    priority := none
    status := none
    assigned_to := none
    notes := none }

/-- The record the create endpoint stores for `emptyTitlePayload`. -/
def emptyTitleDoc : Complaint :=
  { id := newId1
    user_id := oidU
    title := ""
    category := "lainnya"
    description := "deskripsi"
    attachments := []
    status := "baru"
    assigned_to := none
    priority := "sedang"
    sla_due_at := none
    notes := [] }

/-- A create body missing the required `title` field. -/
def noTitlePayload : CreatePayload :=
  { user_id := some oidU
    title := none
    category := none
    description := some "deskripsi"
    attachments := none
    priority := none
    status := none
    assigned_to := none
    notes := none }

/-- A parsed create request with a malformed `user_id`. -/
def badIdReq : ComplaintCreate :=
  { user_id := "not-an-id", title := "judul", category := "lainnya"
    description := "deskripsi", attachments := [], priority := "sedang" }

/-- A parsed create request whose `user_id` is well-formed but unregistered. -/
def ghostReq : ComplaintCreate :=
  { badIdReq with user_id := oidGhost }

/-- A stored complaint in a terminal-looking state with an assignee. -/
def baseComplaint : Complaint :=
  { id := oidC
    user_id := oidU
    title := "Tagihan salah"
    category := "tagihan"
    description := "Tagihan tidak sesuai"
    attachments := []
    status := "selesai"
    assigned_to := some oidOp
    priority := "sedang"
    sla_due_at := none
    notes := [] }

/-- A store holding one user and one complaint (`baseComplaint`). -/
def updStore : Store :=
  { users := [oidU], faqs := [], news := [], complaints := [baseComplaint] }

/-- A store holding one `baru` complaint, for the list counterexample. -/
def listStore : Store :=
  { users := [], faqs := [], news := [],
    complaints := [{ baseComplaint with status := "baru", assigned_to := none }] }

/-- A complaint with the given id suffix and status, for the dashboard
example. -/
def exComplaint (i : Nat) (s : String) : Complaint :=
  { id := toString i
    user_id := oidU
    title := "judul"
    category := "lainnya"
    description := "deskripsi"
    attachments := []
    status := s
    assigned_to := none
    priority := "sedang"
    sla_due_at := none
    notes := [] }

/-- Three users and five complaints: 2 baru, 1 diproses, 2 selesai. -/
def dashStore : Store :=
  { users := ["u1", "u2", "u3"]
    faqs := []
    news := []
    complaints :=
      [exComplaint 1 "baru", exComplaint 2 "baru", exComplaint 3 "diproses",
       exComplaint 4 "selesai", exComplaint 5 "selesai"] }

/-- A sequence of update calls that set status, append a note and reassign,
none of which can null out `assigned_to`. -/
def c10Calls : List (String × String × ComplaintUpdate) :=
  [("T1", oidC, { status := some .diproses, assigned_to := none, note := some "menghubungi" }),
   ("T2", oidC, { status := none, assigned_to := some oidU, note := none }),
   ("T3", oidC, { status := some .ditolak, assigned_to := none, note := none }),
   ("T4", oidGone, { status := none, assigned_to := none, note := some "salah id" })]

/-! Helper lemmas shared by the claim theorems. -/

/-- Finding in an append skips a first block with no match. -/
theorem find_append_of_no_match {α : Type} (p : α → Bool) (l1 l2 : List α)
    (h : ∀ a ∈ l1, p a = false) : (l1 ++ l2).find? p = l2.find? p := by
  induction l1 with
  | nil => rfl
  | cons a l ih =>
    rw [List.cons_append, List.find?_cons_of_neg, ih (fun b hb => h b (List.mem_cons_of_mem a hb))]
    simp [h a (List.mem_cons_self a l)]

/-- An update addressed at an id no stored document carries writes nothing. -/
theorem updateFirst_no_match (cid : String) (f : Complaint → Complaint)
    (l : List Complaint) (h : ∀ c ∈ l, (c.id == cid) = false) :
    updateFirst cid f l = l := by
  induction l with
  | nil => rfl
  | cons a l ih =>
    simp only [updateFirst, h a (List.mem_cons_self a l)]
    rw [if_neg (by simp), ih (fun c hc => h c (List.mem_cons_of_mem a hc))]

/-- Finding the targeted id after an id-preserving first-match update returns
the updated document. -/
theorem find?_updateFirst (cid : String) (f : Complaint → Complaint)
    (hid : ∀ c, (f c).id = c.id) (l : List Complaint) :
    (updateFirst cid f l).find? (fun c => c.id == cid) =
      (l.find? (fun c => c.id == cid)).map f := by
  induction l with
  | nil => rfl
  | cons a l ih =>
    simp only [updateFirst]
    by_cases ha : (a.id == cid) = true
    · rw [if_pos ha]
      simp [List.find?, hid a, ha]
    · rw [if_neg ha]
      have ha' : (a.id == cid) = false := by simpa using ha
      simp [List.find?, ha', ih]

/-- The note push preserves the document id. -/
theorem pushNote_id (t now : String) (c : Complaint) :
    (pushNote t now c).id = c.id := rfl

/-- The scalar update never changes the document id. -/
theorem applyScalarUpdates_id (req : ComplaintUpdate) (c : Complaint) :
    (applyScalarUpdates req c).id = c.id := by
  unfold applyScalarUpdates
  cases req.status <;> cases req.assigned_to <;> rfl

/-- The scalar update never nulls out a non-null `assigned_to`: the field is
written only when the request carries a value. -/
theorem applyScalarUpdates_assigned (req : ComplaintUpdate) (c : Complaint)
    (h : c.assigned_to ≠ none) : (applyScalarUpdates req c).assigned_to ≠ none := by
  unfold applyScalarUpdates
  cases req.status <;> cases req.assigned_to <;> simp_all

/-- A member of an updated list is an old member or the image of one. -/
theorem mem_updateFirst {cid : String} {f : Complaint → Complaint}
    {l : List Complaint} {c : Complaint} (hc : c ∈ updateFirst cid f l) :
    c ∈ l ∨ ∃ d ∈ l, c = f d := by
  induction l with
  | nil => simp [updateFirst] at hc
  | cons a l ih =>
    simp only [updateFirst] at hc
    by_cases ha : (a.id == cid) = true
    · rw [if_pos ha] at hc
      rcases List.mem_cons.mp hc with h | h
      · exact Or.inr ⟨a, List.mem_cons_self a l, h⟩
      · exact Or.inl (List.mem_cons_of_mem a h)
    · rw [if_neg ha] at hc
      rcases List.mem_cons.mp hc with h | h
      · exact Or.inl (by simp [h])
      · rcases ih h with h' | ⟨d, hd, he⟩
        · exact Or.inl (List.mem_cons_of_mem a h')
        · exact Or.inr ⟨d, List.mem_cons_of_mem a hd, he⟩

/-- A whole-store no-match fact, phrased on the complaint list. -/
theorem no_match_of_findComplaint_none {st : Store} {cid : String}
    (habsent : findComplaint st cid = none) :
    ∀ c ∈ st.complaints, (c.id == cid) = false := by
  rw [findComplaint, List.find?_eq_none] at habsent
  intro c hc
  simpa using habsent c hc

/-- An update addressed at an id absent from the store writes nothing. -/
theorem updateWrites_absent (now cid : String) (st : Store)
    (req : ComplaintUpdate) (habsent : findComplaint st cid = none) :
    updateWrites now st cid req = st := by
  have h := no_match_of_findComplaint_none habsent
  have hnote : noteWrite now cid req st = st := by
    unfold noteWrite
    cases req.note with
    | none => rfl
    | some n =>
      show (if n ≠ "" then
          { st with complaints := updateFirst cid (pushNote n now) st.complaints }
        else st) = st
      by_cases hn : n ≠ ""
      · rw [if_pos hn, updateFirst_no_match _ _ _ h]
      · rw [if_neg hn]
  have hscalar : scalarWrite cid req st = st := by
    unfold scalarWrite
    by_cases hs : hasScalarUpdates req = true
    · rw [if_pos hs, updateFirst_no_match _ _ _ h]
    · rw [if_neg hs]
  unfold updateWrites
  rw [hnote, hscalar]

/-- Re-reading the targeted id after the note write returns the document
with the note appended. -/
theorem findComplaint_noteWrite_some (now cid n : String) (st : Store)
    (c : Complaint) (hfound : findComplaint st cid = some c) (hn : n ≠ "") :
    findComplaint (noteWrite now cid { status := none, assigned_to := none, note := some n } st) cid =
      some (pushNote n now c) := by
  unfold noteWrite
  show findComplaint
      (if n ≠ "" then
        { st with complaints := updateFirst cid (pushNote n now) st.complaints }
      else st) cid = some (pushNote n now c)
  rw [if_pos hn]
  show (updateFirst cid (pushNote n now) st.complaints).find? (fun c => c.id == cid) = _
  rw [find?_updateFirst cid (pushNote n now) (fun c => rfl)]
  rw [findComplaint] at hfound
  rw [hfound]
  rfl

/-- A note-only update leaves the scalar write phase inert. -/
theorem scalarWrite_note_only (cid : String) (n : Option String) (st : Store) :
    scalarWrite cid { status := none, assigned_to := none, note := n } st = st := rfl

/-- After a successful insert of a fresh id, the read-back finds exactly the
inserted record. -/
theorem findComplaint_after_insert (newId : String) (st : Store)
    (req : ComplaintCreate) (hfresh : ∀ c ∈ st.complaints, c.id ≠ newId) :
    findComplaint { st with complaints := st.complaints ++ [newComplaintDoc newId req] }
      newId = some (newComplaintDoc newId req) := by
  show (st.complaints ++ [newComplaintDoc newId req]).find? (fun c => c.id == newId) = _
  rw [find_append_of_no_match _ _ _ (fun c hc => by simpa using hfresh c hc)]
  simp [List.find?, newComplaintDoc]

/-- Claim C1: for every payload accepted by validation — whatever
`status`/`assigned_to`/`notes` values it smuggles alongside the declared
fields — the record the create endpoint stores has `status = "baru"`,
`assigned_to = null` and `notes = []`, and the endpoint returns exactly the
persisted record, which carries the server-generated id. -/
theorem create_forces_workflow_fields
    (newId : String) (st : Store) (p : CreatePayload) (st' : Store) (doc : Complaint)
    (hfresh : ∀ c ∈ st.complaints, c.id ≠ newId)
    (hrun : create_endpoint newId st p = (st', .ok doc)) :
    doc.status = "baru" ∧ doc.assigned_to = none ∧ doc.notes = [] ∧
    doc.id = newId ∧ st'.complaints = st.complaints ++ [doc] := by
  unfold create_endpoint at hrun
  cases hp : parseComplaintCreate p with
  | none => rw [hp] at hrun; simp at hrun
  | some req =>
    rw [hp] at hrun
    replace hrun : create_complaint newId st req = (st', .ok doc) := hrun
    unfold create_complaint at hrun
    by_cases h1 : isValidObjectId req.user_id = true
    · rw [if_neg (by simp [h1])] at hrun
      by_cases h2 : st.users.contains req.user_id = true
      · rw [if_neg (by simpa using h2)] at hrun
        rw [findComplaint_after_insert newId st req hfresh] at hrun
        simp only [Prod.mk.injEq, Except.ok.injEq] at hrun
        obtain ⟨hst, hdoc⟩ := hrun
        subst hdoc
        subst hst
        exact ⟨rfl, rfl, rfl, rfl, rfl⟩
      · rw [if_pos (by simpa using h2)] at hrun
        simp at hrun
    · rw [if_pos (by simp [h1])] at hrun
      simp at hrun

/-- Witness for C1: the create endpoint evaluated on a payload that smuggles
status, assignee and notes values, against a store holding that user. -/
theorem create_forces_workflow_fields_witness :
    wDoc.status = "baru" ∧ wDoc.assigned_to = none ∧ wDoc.notes = [] ∧
    wDoc.id = newId1 ∧ wStore1.complaints = wStore.complaints ++ [wDoc] :=
  create_forces_workflow_fields newId1 wStore wPayload wStore1 wDoc
    (by decide) (by rfl)

/-- Claim C2 counterexample: a create request whose `title` is the empty
string is accepted — validation passes, the endpoint succeeds, and a record
with an empty title is stored — contradicting the claim that every create
request with an empty title fails with no record created. -/
theorem create_accepts_empty_title_cex :
    create_endpoint newId1 wStore emptyTitlePayload =
      ({ wStore with complaints := [emptyTitleDoc] }, .ok emptyTitleDoc) ∧
    emptyTitleDoc.title = "" :=
  ⟨rfl, rfl⟩

/-- Claim C2 (amended): the create endpoint rejects every request whose
payload is missing the required `title` or `description` field with a
ValidationError, storing nothing; an empty string, however, satisfies
pydantic validation of a `str` field, so emptiness itself is not rejected
(see the counterexample). -/
theorem create_rejects_missing_required_fields
    (newId : String) (st : Store) (p : CreatePayload)
    (h : p.title = none ∨ p.description = none) :
    create_endpoint newId st p =
      (st, .error (.validation "request body validation failed")) := by
  have hp : parseComplaintCreate p = none := by
    cases hu : p.user_id <;> cases ht : p.title <;> cases hd : p.description <;>
      simp_all [parseComplaintCreate]
  unfold create_endpoint
  rw [hp]

/-- Witness for C2's amended theorem: a payload without a title field is
rejected and the store is unchanged. -/
theorem create_rejects_missing_required_fields_witness :
    create_endpoint newId1 wStore noTitlePayload =
      (wStore, .error (.validation "request body validation failed")) :=
  create_rejects_missing_required_fields newId1 wStore noTitlePayload (Or.inl rfl)

/-- Claim C3: a create request with a malformed `user_id` fails with the 400
ValidationError, and one with a well-formed but unregistered `user_id` fails
with the 404 NotFoundError; both errors are raised before the insert, so the
store is returned unchanged and no complaint record is created. -/
theorem create_user_id_validation
    (newId : String) (st : Store) (req : ComplaintCreate) :
    (isValidObjectId req.user_id = false →
      create_complaint newId st req =
        (st, .error (.validation "user_id tidak valid"))) ∧
    (isValidObjectId req.user_id = true → st.users.contains req.user_id = false →
      create_complaint newId st req =
        (st, .error (.notFound "User tidak ditemukan"))) := by
  constructor
  · intro h
    unfold create_complaint
    rw [if_pos (by simp [h])]
  · intro h1 h2
    unfold create_complaint
    rw [if_neg (by simp [h1]), if_pos (by simpa using h2)]

/-- Witness for C3: both failure modes evaluated on concrete requests. -/
theorem create_user_id_validation_witness :
    create_complaint newId1 wStore badIdReq =
      (wStore, .error (.validation "user_id tidak valid")) ∧
    create_complaint newId1 wStore ghostReq =
      (wStore, .error (.notFound "User tidak ditemukan")) :=
  ⟨(create_user_id_validation newId1 wStore badIdReq).1 (by decide),
   (create_user_id_validation newId1 wStore ghostReq).2 (by decide) (by decide)⟩

/-- Claim C4: updating a syntactically valid id that resolves to no stored
complaint fails with the 404 NotFoundError; the check runs after the
conditional writes, which match nothing, so the store is returned exactly
unchanged rather than the update silently succeeding. -/
theorem update_missing_id_not_found
    (now cid : String) (st : Store) (req : ComplaintUpdate)
    (hvalid : isValidObjectId cid = true)
    (habsent : findComplaint st cid = none) :
    update_complaint now st cid req =
      (st, .error (.notFound "Pengaduan tidak ditemukan")) := by
  have hw := updateWrites_absent now cid st req habsent
  unfold update_complaint
  rw [if_neg (by simp [hvalid]), hw, habsent]

/-- Witness for C4: an update addressed at an absent id, evaluated. -/
theorem update_missing_id_not_found_witness :
    update_complaint "T0" updStore oidGone
        { status := some .diproses, assigned_to := none, note := some "catatan" } =
      (updStore, .error (.notFound "Pengaduan tidak ditemukan")) :=
  update_missing_id_not_found "T0" oidGone updStore _ (by decide) (by decide)

/-- Claim C5: an update that supplies none of status, assigned_to or note
performs no write — the store comes back exactly as it was, every record
untouched — and returns the current record as stored (idempotent read). -/
theorem update_noop_returns_record
    (now cid : String) (st : Store) (c : Complaint)
    (hvalid : isValidObjectId cid = true)
    (hfound : findComplaint st cid = some c) :
    update_complaint now st cid { status := none, assigned_to := none, note := none } =
      (st, .ok c) := by
  have hw : updateWrites now st cid
      { status := none, assigned_to := none, note := none } = st := rfl
  unfold update_complaint
  rw [if_neg (by simp [hvalid]), hw, hfound]

/-- Witness for C5: the empty update evaluated on a stored complaint. -/
theorem update_noop_returns_record_witness :
    update_complaint "T0" updStore oidC
        { status := none, assigned_to := none, note := none } =
      (updStore, .ok baseComplaint) :=
  update_noop_returns_record "T0" oidC updStore baseComplaint (by decide) (by decide)

/-- A note-only update on an existing complaint: the handler returns the
record with the note appended, and the store holds that record. -/
theorem update_note_step
    (tnow cid n : String) (st : Store) (c : Complaint)
    (hvalid : isValidObjectId cid = true)
    (hfound : findComplaint st cid = some c) (hn : n ≠ "") :
    update_complaint tnow st cid { status := none, assigned_to := none, note := some n } =
      (noteWrite tnow cid { status := none, assigned_to := none, note := some n } st,
       .ok (pushNote n tnow c)) ∧
    findComplaint
      (update_complaint tnow st cid
        { status := none, assigned_to := none, note := some n }).1 cid =
      some (pushNote n tnow c) := by
  have hw : updateWrites tnow st cid { status := none, assigned_to := none, note := some n } =
      noteWrite tnow cid { status := none, assigned_to := none, note := some n } st := by
    unfold updateWrites
    rw [scalarWrite_note_only]
  have hfind := findComplaint_noteWrite_some tnow cid n st c hfound hn
  have hrun : update_complaint tnow st cid
      { status := none, assigned_to := none, note := some n } =
      (noteWrite tnow cid { status := none, assigned_to := none, note := some n } st,
       .ok (pushNote n tnow c)) := by
    unfold update_complaint
    rw [if_neg (by simp [hvalid]), hw, hfind]
  exact ⟨hrun, by rw [hrun]; exact hfind⟩

/-- Claim C6: notes are append-only under update — appending non-empty note
A and then non-empty note B to an existing complaint yields the prior notes
followed by the `{text, at}` records of A and B, in that order, each
stamped with the clock value of its own call; no prior entry is edited or
removed. -/
theorem update_notes_append_only
    (t1 t2 cid a b : String) (st : Store) (c : Complaint)
    (hvalid : isValidObjectId cid = true)
    (hfound : findComplaint st cid = some c) (ha : a ≠ "") (hb : b ≠ "") :
    ((update_complaint t1 st cid
        { status := none, assigned_to := none, note := some a }).2.toOption.map
      Complaint.notes = some (c.notes ++ [{ text := a, «at» := t1 }])) ∧
    ((update_complaint t2
        (update_complaint t1 st cid
          { status := none, assigned_to := none, note := some a }).1 cid
        { status := none, assigned_to := none, note := some b }).2.toOption.map
      Complaint.notes =
        some (c.notes ++ [{ text := a, «at» := t1 }, { text := b, «at» := t2 }])) := by
  obtain ⟨h1, hfind1⟩ := update_note_step t1 cid a st c hvalid hfound ha
  obtain ⟨h2, _⟩ := update_note_step t2 cid b _ (pushNote a t1 c) hvalid hfind1 hb
  constructor
  · rw [h1]
    simp [pushNote, Except.toOption]
  · rw [h2]
    simp [pushNote, Except.toOption]

/-- Witness for C6: two note appends evaluated on a stored complaint. -/
theorem update_notes_append_only_witness :
    ((update_complaint "T1" updStore oidC
        { status := none, assigned_to := none, note := some "A" }).2.toOption.map
      Complaint.notes = some (baseComplaint.notes ++ [{ text := "A", «at» := "T1" }])) ∧
    ((update_complaint "T2"
        (update_complaint "T1" updStore oidC
          { status := none, assigned_to := none, note := some "A" }).1 oidC
        { status := none, assigned_to := none, note := some "B" }).2.toOption.map
      Complaint.notes =
        some (baseComplaint.notes ++
          [{ text := "A", «at» := "T1" }, { text := "B", «at» := "T2" }])) :=
  update_notes_append_only "T1" "T2" oidC "A" "B" updStore baseComplaint
    (by decide) (by decide) (by decide) (by decide)

/-- Claim C7 counterexample: with the status key supplied as the empty
string, the handler drops it from the filter (Python truthiness), so a
stored baru complaint is returned even though it does not satisfy the
supplied equality — the filter is not built from exactly the supplied keys. -/
theorem list_supplied_empty_key_cex :
    list_complaints listStore (some "") none none none =
      [{ baseComplaint with status := "baru", assigned_to := none }] ∧
    ({ baseComplaint with status := "baru", assigned_to := none } : Complaint).status ≠ "" := by
  exact ⟨rfl, by decide⟩

/-- Claim C7 (amended): the list operation builds the conjunctive
exact-match filter from the supplied keys whose values are non-empty — a key
supplied as the empty string is treated like an absent key and imposes no
constraint — bounds the result count by the limit (default 100 when
unspecified), and returns matching records unmodified: every returned record
is stored and satisfies every supplied non-empty equality (with status and
user_id both supplied non-empty, only records matching both), and whenever
the matching set fits the limit it is returned whole. -/
theorem list_complaints_filter_correct
    (st : Store) (qs qu qa : Option String) (lim : Option Nat) :
    (∀ c ∈ list_complaints st qs qu qa lim,
      c ∈ st.complaints ∧
      (∀ s, qs = some s → s ≠ "" → c.status = s) ∧
      (∀ u, qu = some u → u ≠ "" → c.user_id = u) ∧
      (∀ a, qa = some a → a ≠ "" → c.assigned_to = some a)) ∧
    (list_complaints st qs qu qa lim).length ≤ lim.getD 100 ∧
    ((st.complaints.filter (listPred qs qu qa)).length ≤ lim.getD 100 →
      list_complaints st qs qu qa lim = st.complaints.filter (listPred qs qu qa)) := by
  refine ⟨?_, ?_, ?_⟩
  · intro c hc
    have hc' : c ∈ st.complaints.filter (listPred qs qu qa) :=
      List.take_subset _ _ hc
    have hmem := List.mem_of_mem_filter hc'
    have hpred : listPred qs qu qa c = true := List.of_mem_filter hc'
    simp only [listPred, Bool.and_eq_true] at hpred
    obtain ⟨⟨hs, hu⟩, hat⟩ := hpred
    refine ⟨hmem, ?_, ?_, ?_⟩
    · intro s hqs hne
      rw [hqs] at hs
      simp [fieldConstraint, hne] at hs
      exact hs
    · intro u hqu hne
      rw [hqu] at hu
      simp [fieldConstraint, hne] at hu
      exact hu
    · intro a hqa hne
      rw [hqa] at hat
      simp [optFieldConstraint, hne] at hat
      exact hat
  · exact List.length_take_le _ _
  · intro h
    exact List.take_of_length_le h

/-- Witness for C7's amended theorem: listing with status baru on a store
holding one baru complaint returns it, it satisfies the supplied equality,
and the whole matching set is returned since it fits the default limit. -/
theorem list_complaints_filter_correct_witness :
    ({ baseComplaint with status := "baru", assigned_to := none } : Complaint).status = "baru" ∧
    list_complaints listStore (some "baru") none none none =
      listStore.complaints.filter (listPred (some "baru") none none) :=
  ⟨((list_complaints_filter_correct listStore (some "baru") none none none).1
      { baseComplaint with status := "baru", assigned_to := none } (by decide)).2.1
      "baru" rfl (by decide),
   (list_complaints_filter_correct listStore (some "baru") none none none).2.2 (by decide)⟩

/-- Claim C8: the dashboard summary reports the number of user records, the
number of complaint records, the number of complaints with status baru or
diproses as open and the number with status selesai as closed; on 3 users
and 5 complaints (2 baru, 1 diproses, 2 selesai) it reports 3 open, 2
closed, 5 complaints and 3 users. -/
theorem dashboard_summary_counts (st : Store) :
    (dashboard_summary st).users = st.users.length ∧
    (dashboard_summary st).complaints = st.complaints.length ∧
    (dashboard_summary st).complaints_open =
      st.complaints.countP (fun c => decide (c.status = "baru" ∨ c.status = "diproses")) ∧
    (dashboard_summary st).complaints_closed =
      st.complaints.countP (fun c => decide (c.status = "selesai")) ∧
    dashboard_summary dashStore =
      { users := 3, complaints := 5, complaints_open := 3, complaints_closed := 2,
        faqs := 0, news := 0 } := by
  refine ⟨rfl, rfl, ?_, ?_, by decide⟩
  · rw [List.countP_eq_length_filter]
    have hpred : (fun c : Complaint => c.status == "baru" || c.status == "diproses") =
        (fun c : Complaint => decide (c.status = "baru" ∨ c.status = "diproses")) := by
      funext c
      by_cases h1 : c.status = "baru" <;> by_cases h2 : c.status = "diproses" <;>
        simp [h1, h2]
    show (st.complaints.filter fun c => c.status == "baru" || c.status == "diproses").length = _
    rw [hpred]
  · rw [List.countP_eq_length_filter]
    have hpred : (fun c : Complaint => c.status == "selesai") =
        (fun c : Complaint => decide (c.status = "selesai")) := by
      funext c
      by_cases h : c.status = "selesai" <;> simp [h]
    show (st.complaints.filter fun c => c.status == "selesai").length = _
    rw [hpred]

/-- Claim C9: status transitions are unconstrained — for an existing
complaint in any current status (selesai and ditolak included) and any of
the four enumerated target statuses, the update is accepted: the handler
returns the record carrying the target status and the store holds it. -/
theorem update_status_unconstrained
    (now cid : String) (st : Store) (c : Complaint) (s : Status)
    (hvalid : isValidObjectId cid = true)
    (hfound : findComplaint st cid = some c) :
    ((update_complaint now st cid
        { status := some s, assigned_to := none, note := none }).2.toOption.map
      Complaint.status = some s.toStr) ∧
    ((findComplaint
        (update_complaint now st cid
          { status := some s, assigned_to := none, note := none }).1 cid).map
      Complaint.status = some s.toStr) := by
  have hw : updateWrites now st cid ⟨some s, none, none⟩ =
      { st with complaints := updateFirst cid (applyScalarUpdates ⟨some s, none, none⟩) st.complaints } :=
    rfl
  have hfind : findComplaint
      { st with complaints := updateFirst cid (applyScalarUpdates ⟨some s, none, none⟩) st.complaints }
      cid = some (applyScalarUpdates ⟨some s, none, none⟩ c) := by
    show (updateFirst cid (applyScalarUpdates ⟨some s, none, none⟩) st.complaints).find?
      (fun c => c.id == cid) = _
    rw [find?_updateFirst cid (applyScalarUpdates ⟨some s, none, none⟩)
      (applyScalarUpdates_id ⟨some s, none, none⟩)]
    rw [findComplaint] at hfound
    rw [hfound]
    rfl
  have hrun : update_complaint now st cid ⟨some s, none, none⟩ =
      ({ st with complaints := updateFirst cid (applyScalarUpdates ⟨some s, none, none⟩) st.complaints },
       .ok (applyScalarUpdates ⟨some s, none, none⟩ c)) := by
    unfold update_complaint
    rw [if_neg (by simp [hvalid]), hw, hfind]
  constructor
  · rw [hrun]
    simp [Except.toOption, applyScalarUpdates]
  · rw [hrun]
    show (findComplaint _ cid).map Complaint.status = _
    rw [hfind]
    simp [applyScalarUpdates]

/-- Witness for C9: a complaint already in the terminal-looking selesai
status is moved back to baru. -/
theorem update_status_unconstrained_witness :
    ((update_complaint "T0" updStore oidC
        { status := some .baru, assigned_to := none, note := none }).2.toOption.map
      Complaint.status = some Status.baru.toStr) ∧
    ((findComplaint
        (update_complaint "T0" updStore oidC
          { status := some .baru, assigned_to := none, note := none }).1 oidC).map
      Complaint.status = some Status.baru.toStr) :=
  update_status_unconstrained "T0" oidC updStore baseComplaint .baru
    (by decide) (by decide)

/-- First-match updates by an id-preserving function that never nulls the
assignee preserve the non-null-assignee invariant. -/
theorem assignedInvariant_updateFirst (cid0 cid : String)
    (f : Complaint → Complaint) (hid : ∀ c, (f c).id = c.id)
    (hpres : ∀ c, c.assigned_to ≠ none → (f c).assigned_to ≠ none)
    (l : List Complaint) (hinv : ∀ c ∈ l, c.id = cid0 → c.assigned_to ≠ none) :
    ∀ c ∈ updateFirst cid f l, c.id = cid0 → c.assigned_to ≠ none := by
  intro c hc hcid
  rcases mem_updateFirst hc with h | ⟨d, hd, rfl⟩
  · exact hinv c h hcid
  · rw [hid d] at hcid
    exact hpres d (hinv d hd hcid)

/-- The note write phase preserves the non-null-assignee invariant. -/
theorem assignedInvariant_noteWrite (cid0 now cid : String)
    (req : ComplaintUpdate) (st : Store) (hinv : assignedInvariant cid0 st) :
    assignedInvariant cid0 (noteWrite now cid req st) := by
  unfold noteWrite
  cases req.note with
  | none => exact hinv
  | some n =>
    show assignedInvariant cid0
      (if n ≠ "" then
        { st with complaints := updateFirst cid (pushNote n now) st.complaints }
      else st)
    by_cases hn : n ≠ ""
    · rw [if_pos hn]
      exact assignedInvariant_updateFirst cid0 cid (pushNote n now)
        (pushNote_id n now) (fun c h => h) st.complaints hinv
    · rw [if_neg hn]
      exact hinv

/-- The scalar write phase preserves the non-null-assignee invariant. -/
theorem assignedInvariant_scalarWrite (cid0 cid : String)
    (req : ComplaintUpdate) (st : Store) (hinv : assignedInvariant cid0 st) :
    assignedInvariant cid0 (scalarWrite cid req st) := by
  unfold scalarWrite
  by_cases hs : hasScalarUpdates req = true
  · rw [if_pos hs]
    exact assignedInvariant_updateFirst cid0 cid _ (applyScalarUpdates_id req)
      (applyScalarUpdates_assigned req) _ hinv
  · rw [if_neg hs]
    exact hinv

/-- One update call, whatever its body, preserves the non-null-assignee
invariant on the surviving store. -/
theorem update_fst_preserves_assignedInvariant
    (cid0 now cid : String) (st : Store) (req : ComplaintUpdate)
    (hinv : assignedInvariant cid0 st) :
    assignedInvariant cid0 (update_complaint now st cid req).1 := by
  have h2 : assignedInvariant cid0 (updateWrites now st cid req) :=
    assignedInvariant_scalarWrite cid0 cid req _
      (assignedInvariant_noteWrite cid0 now cid req st hinv)
  unfold update_complaint
  by_cases hv : isValidObjectId cid = true
  · rw [if_neg (by simp [hv])]
    cases hf : findComplaint (updateWrites now st cid req) cid with
    | none => exact h2
    | some doc => exact h2
  · rw [if_pos (by simp [hv])]
    exact hinv

/-- Claim C10: update can never reset `assigned_to` to null — the field is
written only when the request supplies a value — so once every stored
complaint with a given id has a non-null assignee, that holds after any
sequence of update calls: a complaint can be reassigned but never
unassigned through the public interface. -/
theorem update_never_unassigns
    (cid0 : String) (st : Store) (calls : List (String × String × ComplaintUpdate))
    (hinv : assignedInvariant cid0 st) :
    assignedInvariant cid0 (applyUpdates st calls) := by
  induction calls generalizing st with
  | nil => exact hinv
  | cons k ks ih =>
    exact ih _ (update_fst_preserves_assignedInvariant cid0 k.1 k.2.1 st k.2.2 hinv)

/-- Witness for C10: the invariant evaluated on a concrete store through a
concrete sequence of update calls, one of which omits the assignee, one of
which reassigns it, none of which can null it. -/
theorem update_never_unassigns_witness :
    assignedInvariant oidC (applyUpdates updStore c10Calls) :=
  update_never_unassigns oidC updStore c10Calls (by unfold assignedInvariant; decide)

end ComplaintPortal
